import Mathlib

/-!
Verification of the Oceanova repository's request handlers and seed script.

This file gives a shallow embedding of:
* the `POST /api/login` route handler (email normalization, bcrypt check,
  JWT cookie issuance, 400/401/500 error paths);
* the `POST /api/contact` route handler (required-field validation, email
  regex validation, delegation to the email-sending collaborator);
* the demo seeding script `scripts/seed-observations.js` (generation of 100
  `species_observations` documents from a stream of `Math.random()` draws).

JavaScript strings are embedded as Lean `String`/`List Char`; possibly-absent
JSON fields as `Option String` (with `none` and `""` both JS-falsy); numbers
in the seed script as `ℚ` with `Math.floor`/`Math.round` as integer floor;
throwing calls as `Except String` values supplied by an environment record,
with the handler's `try/catch` as a match on the `Except` result.  External
collaborators (bcrypt, the email service) are abstract function parameters,
and the calls made to them are recorded in a trace list.
-/

/-! ## JavaScript string primitives -/

/-- Model of the JavaScript whitespace class (the ASCII part: space, tab,
line feed, carriage return, vertical tab, form feed). -/
def jsWhitespaceChar (c : Char) : Bool :=
  c.toNat = 32 || c.toNat = 9 || c.toNat = 10 || c.toNat = 13 || c.toNat = 11 || c.toNat = 12

/-- Model of `String.prototype.trim`: drop leading and trailing whitespace. -/
def jsTrim (l : List Char) : List Char :=
  ((l.dropWhile jsWhitespaceChar).reverse.dropWhile jsWhitespaceChar).reverse

/-- Model of `String.prototype.toLowerCase` (ASCII range, via `Char.toLower`). -/
def jsToLowerCase (l : List Char) : List Char :=
  l.map Char.toLower

/-- Embedding of `String(email).trim().toLowerCase()` from the login handler. -/
def normalizeEmail (s : String) : String :=
  String.mk (jsToLowerCase (jsTrim s.data))

/-- JS truthiness test for a possibly-absent string field: `undefined`/missing
and the empty string are falsy. -/
def jsFalsy : Option String → Bool
  | none => true
  | some s => s == ""

/-- Embedding of the JS idiom `a || d` for a possibly-absent string `a` and a
string default `d` (used for `institution || "Not specified"` and
`user.lastName || ""`). -/
def jsOrDefaultStr (a : Option String) (d : String) : String :=
  if jsFalsy a then d else a.getD ""

/-- Embedding of the JS idiom `a || b` where both sides may be absent
(used for `user.firstName || user.username`). -/
def jsOrOpt (a b : Option String) : Option String :=
  if jsFalsy a then b else a

/-! ## The login route handler (`POST /api/login`) -/

/-- A MongoDB user document, as read by the login handler. -/
structure User where
  id : String
  email : String
  password : Option String
  firstName : Option String
  username : Option String
  lastName : Option String
  dob : Option String
  avatar : Option String
deriving DecidableEq

/-- The `user` object included in the 200 response body. -/
structure UserOut where
  id : String
  email : String
  firstName : Option String
  lastName : String
  dob : Option String
  avatar : Option String
deriving DecidableEq

/-- Embedding of the `user: {...}` object built in the 200 response. -/
def mkUserOut (u : User) : UserOut :=
  ⟨u.id, u.email, jsOrOpt u.firstName u.username, jsOrDefaultStr u.lastName "", u.dob, u.avatar⟩

/-- Model of `jwt.sign({id, email}, JWT_SECRET, {expiresIn: "1h"})`: the token
is represented by its payload, signing secret and expiry. -/
structure JwtToken where
  id : String
  email : String
  secret : String
  expiresIn : String
deriving DecidableEq

/-- Embedding of the `jwt.sign` call made by the login handler. -/
def jwtSign (id email secret : String) : JwtToken :=
  ⟨id, email, secret, "1h"⟩

/-- The cookie set via `response.cookies.set`. -/
structure SetCookie where
  name : String
  value : JwtToken
  httpOnly : Bool
  secure : Bool
  sameSite : String
  maxAge : Nat
  path : String
deriving DecidableEq

/-- The JSON body of `POST /api/login` after destructuring. -/
structure LoginBody where
  email : Option String
  password : Option String
deriving DecidableEq

/-- A login response: HTTP status, `message` field, optional `user` object,
and the cookie set on it (if any). -/
structure LoginResponse where
  status : Nat
  message : String
  user : Option UserOut
  cookie : Option SetCookie
deriving DecidableEq

/-- The 400 response for a missing email or password. -/
def loginMissing400 : LoginResponse :=
  ⟨400, "Missing email or password", none, none⟩

/-- The 401 response for an unknown email or failed bcrypt comparison. -/
def loginInvalid401 : LoginResponse :=
  ⟨401, "Invalid credentials", none, none⟩

/-- The 400 response for an account without a stored password. -/
def loginGoogle400 : LoginResponse :=
  ⟨400, "This account uses Google Sign-In. Please sign in with Google or reset your password.", none, none⟩

/-- The 500 response produced by the login handler's catch block. -/
def loginError500 : LoginResponse :=
  ⟨500, "Internal server error", none, none⟩

/-- Embedding of `users.findOne({ email })`: first user document whose
`email` field equals the query value. -/
def findOne (users : List User) (email : String) : Option User :=
  users.find? (fun u => u.email == email)

/-- The environment a login request runs in: the parsed body, the user
collection, the bcrypt collaborator and the JWT secret.  Each awaited call
is an `Except` so that it can throw. -/
structure LoginEnv where
  body : Except String LoginBody
  userCollection : Except String (List User)
  bcryptCompare : String → String → Except String Bool
  jwtSecret : String
  nodeEnvProduction : Bool

/-- Embedding of the body of the login handler's `try` block.  Returns the
response (or the thrown exception) together with the list of
`bcrypt.compare` calls that were made. -/
def loginRun (env : LoginEnv) : Except String LoginResponse × List (String × String) :=
  match env.body with
  | .error e => (.error e, [])
  | .ok body =>
    if jsFalsy body.email || jsFalsy body.password then
      (.ok loginMissing400, [])
    else
      let normalizedEmail := normalizeEmail (body.email.getD "")
      match env.userCollection with
      | .error e => (.error e, [])
      | .ok users =>
        match findOne users normalizedEmail with
        | none => (.ok loginInvalid401, [])
        | some user =>
          if jsFalsy user.password then
            (.ok loginGoogle400, [])
          else
            let pw := body.password.getD ""
            let hash := user.password.getD ""
            match env.bcryptCompare pw hash with
            | .error e => (.error e, [(pw, hash)])
            | .ok valid =>
              if !valid then
                (.ok loginInvalid401, [(pw, hash)])
              else
                (.ok ⟨200, "Login successful", some (mkUserOut user),
                  some ⟨"auth_token", jwtSign user.id user.email env.jwtSecret,
                        true, env.nodeEnvProduction, "lax", 3600, "/"⟩⟩,
                 [(pw, hash)])

/-- The whole login handler: the `try` block with its `catch` mapping any
thrown exception to the generic 500 response. -/
def loginPOST (env : LoginEnv) : LoginResponse × List (String × String) :=
  match loginRun env with
  | (.ok r, calls) => (r, calls)
  | (.error _, calls) => (loginError500, calls)

/-- A login environment in which no call throws: the body parsed to `b`, the
collection holds `users`, and bcrypt comparison is the pure function `bc`. -/
def pureLoginEnv (users : List User) (bc : String → String → Bool) (secret : String)
    (b : LoginBody) : LoginEnv :=
  ⟨.ok b, .ok users, fun p h => .ok (bc p h), secret, false⟩

/-- The login handler on a successfully parsed body with non-throwing
collaborators. -/
def login (users : List User) (bc : String → String → Bool) (secret : String)
    (b : LoginBody) : LoginResponse × List (String × String) :=
  loginPOST (pureLoginEnv users bc secret b)

/-! ## The contact route handler (`POST /api/contact`) -/

/-- The JSON body of `POST /api/contact` after destructuring. -/
structure ContactBody where
  firstName : Option String
  lastName : Option String
  email : Option String
  institution : Option String
  message : Option String
deriving DecidableEq

/-- The argument object passed to `sendContactEmail`. -/
structure ContactEmailRequest where
  firstName : String
  lastName : String
  email : String
  institution : String
  message : String
deriving DecidableEq

/-- The result object returned by `sendContactEmail`. -/
structure EmailResult where
  success : Bool
deriving DecidableEq

/-- A contact response: HTTP status, optional `error` field, `success` flag
and optional `message` field. -/
structure ContactResponse where
  status : Nat
  error : Option String
  success : Bool
  message : Option String
deriving DecidableEq

/-- The 400 response for a missing required field. -/
def contactMissing400 : ContactResponse :=
  ⟨400, some "All fields are required", false, none⟩

/-- The 400 response for an email failing the format check. -/
def contactBadEmail400 : ContactResponse :=
  ⟨400, some "Please enter a valid email address", false, none⟩

/-- The 500 response for a collaborator that reports failure. -/
def contactSendFailed500 : ContactResponse :=
  ⟨500, some "Failed to send message. Please try again.", false, none⟩

/-- The 200 success response. -/
def contactSuccess200 : ContactResponse :=
  ⟨200, none, true, some "Message sent successfully! We'll get back to you soon."⟩

/-- The 500 response produced by the contact handler's catch block. -/
def contactError500 : ContactResponse :=
  ⟨500, some "Internal server error. Please try again later.", false, none⟩

/-- A character admissible in every part of the email regex: anything that is
neither whitespace nor an at sign (the class written as caret-s-at in the
source regex). -/
def isEmailChar (c : Char) : Bool :=
  !(jsWhitespaceChar c) && !(c == '@')

/-- Embedding of `emailRegex.test(email)` for the anchored source pattern
"one or more non-whitespace-non-at characters, an at sign, one or more
non-whitespace-non-at characters, a dot, one or more non-whitespace-non-at
characters".  The string is split at its first at sign; the pattern matches
exactly when everything before it is a nonempty run of admissible characters
and everything after it is a nonempty run of admissible characters containing
a dot that is neither its first nor its last character. -/
def emailRegexTest (s : String) : Bool :=
  let l := s.data
  let loc := l.takeWhile (fun c => !(c == '@'))
  match l.dropWhile (fun c => !(c == '@')) with
  | [] => false
  | _ :: rest =>
      !loc.isEmpty && loc.all isEmailChar &&
      !rest.isEmpty && rest.all isEmailChar &&
      ((rest.drop 1).dropLast.contains '.')

/-- The argument object the contact handler passes to `sendContactEmail`:
the four required fields as given, with `institution || "Not specified"`. -/
def mkContactReq (b : ContactBody) : ContactEmailRequest :=
  ⟨b.firstName.getD "", b.lastName.getD "", b.email.getD "",
   jsOrDefaultStr b.institution "Not specified", b.message.getD ""⟩

/-- The environment a contact request runs in. -/
structure ContactEnv where
  body : Except String ContactBody
  sendContactEmail : ContactEmailRequest → Except String EmailResult

/-- Embedding of the body of the contact handler's `try` block.  Returns the
response (or the thrown exception) together with the list of
`sendContactEmail` calls that were made. -/
def contactRun (env : ContactEnv) : Except String ContactResponse × List ContactEmailRequest :=
  match env.body with
  | .error e => (.error e, [])
  | .ok b =>
    if jsFalsy b.firstName || jsFalsy b.lastName || jsFalsy b.email || jsFalsy b.message then
      (.ok contactMissing400, [])
    else if !(emailRegexTest (b.email.getD "")) then
      (.ok contactBadEmail400, [])
    else
      let req : ContactEmailRequest := mkContactReq b
      match env.sendContactEmail req with
      | .error e => (.error e, [req])
      | .ok result =>
        if !result.success then
          (.ok contactSendFailed500, [req])
        else
          (.ok contactSuccess200, [req])

/-- The whole contact handler: the `try` block with its `catch` mapping any
thrown exception to the generic 500 response. -/
def contactPOST (env : ContactEnv) : ContactResponse × List ContactEmailRequest :=
  match contactRun env with
  | (.ok r, calls) => (r, calls)
  | (.error _, calls) => (contactError500, calls)

/-- A contact environment in which no call throws. -/
def pureContactEnv (send : ContactEmailRequest → EmailResult) (b : ContactBody) : ContactEnv :=
  ⟨.ok b, fun r => .ok (send r)⟩

/-- The contact handler on a successfully parsed body with a non-throwing
collaborator. -/
def contact (send : ContactEmailRequest → EmailResult) (b : ContactBody) :
    ContactResponse × List ContactEmailRequest :=
  contactPOST (pureContactEnv send b)

/-! ## The seeding script (`scripts/seed-observations.js`) -/

/-- Model of `Math.floor` on an exact rational value. -/
def jsFloor (q : ℚ) : Int :=
  ⌊q⌋

/-- Model of `Math.round` on an exact rational value: half rounds up. -/
def jsRound (q : ℚ) : Int :=
  ⌊q + 1/2⌋

/-- Embedding of `randomInRange(min, max)` applied to one `Math.random()`
draw `r`: the script computes `r * (max - min) + min`. -/
def randomInRange (lo hi r : ℚ) : ℚ :=
  r * (hi - lo) + lo

/-- Embedding of `randomChoice(list)` applied to one `Math.random()` draw
`r`: the element at index `Math.floor(r * list.length)`. -/
def randomChoice (l : List String) (r : ℚ) : String :=
  l.getD (Int.toNat (jsFloor (r * l.length))) ""

/-- Embedding of `pickThreatByWaterQuality`. -/
def pickThreatByWaterQuality (wq : ℚ) : String :=
  if wq ≥ 7.5 then "low"
  else if wq ≥ 5.5 then "medium"
  else if wq ≥ 3.5 then "high"
  else "critical"

/-- The `regions` array of the script. -/
def regions : List String :=
  ["pacific", "atlantic", "indian", "arctic"]

/-- The `speciesPool` array of the script. -/
def speciesPool : List String :=
  ["Blue Whale", "Loggerhead Turtle", "Giant Manta Ray", "Great White Shark",
   "Humboldt Squid", "Atlantic Cod", "Clownfish", "Emperor Penguin",
   "Narwhal", "Sea Otter", "Sardine", "Yellowfin Tuna", "Coral Grouper",
   "Dugong", "Seahorse", "Sperm Whale", "Albatross", "Krill",
   "Flying Fish", "Anglerfish"]

/-- The `statuses` array of the script. -/
def statuses : List String :=
  ["Least Concern", "Near Threatened", "Vulnerable", "Endangered",
   "Critically Endangered"]

/-- A region's temperature, latitude and longitude profile. -/
structure RegionProfile where
  tempLo : ℚ
  tempHi : ℚ
  latLo : ℚ
  latHi : ℚ
  lonLo : ℚ
  lonHi : ℚ
deriving DecidableEq

/-- Embedding of the `regionProfiles` object lookup.  The script only ever
looks up one of the four region keys; the arctic profile doubles as the
fallback branch of the if chain. -/
def regionProfiles (region : String) : RegionProfile :=
  if region = "pacific" then ⟨6, 28, -40, 40, -160, -120⟩
  else if region = "atlantic" then ⟨5, 26, -30, 50, -60, -20⟩
  else if region = "indian" then ⟨8, 30, -35, 20, 50, 100⟩
  else ⟨2, 8, 65, 80, -160, 40⟩

/-- Model of `Number.prototype.toFixed(1)` for the nonnegative values used in
the `location` string: one rounded decimal digit. -/
def toFixed1 (q : ℚ) : String :=
  toString (jsRound (q * 10) / 10) ++ "." ++ toString (jsRound (q * 10) % 10)

/-- Model of `String.prototype.toUpperCase` (ASCII range). -/
def jsToUpperCase (s : String) : String :=
  String.mk (s.data.map Char.toUpper)

/-- A `species_observations` document as pushed by the seeding loop. -/
structure Observation where
  createdAt : Int
  region : String
  species : String
  speciesCount : Int
  conservationStatus : String
  waterQuality : ℚ
  threatLevel : String
  temperature : ℚ
  depth : Int
  coordinates : ℚ × ℚ
  location : String
deriving DecidableEq

/-- Embedding of one iteration of the seeding loop.  `now` is the run time in
milliseconds, `rnd` is the stream of `Math.random()` draws, and iteration `i`
consumes draws `10*i` through `10*i+9` in the order the script makes them:
region, species, status, date, temperature, latitude, longitude, water
quality, species count, depth. -/
def seedDoc (now : Int) (rnd : Nat → ℚ) (i : Nat) : Observation :=
  let region := randomChoice regions (rnd (10*i))
  let species := randomChoice speciesPool (rnd (10*i+1))
  let status := randomChoice statuses (rnd (10*i+2))
  let daysAgo := Int.toNat (jsFloor (rnd (10*i+3) * (6 * 30)))
  let createdAt := now - daysAgo * (24 * 60 * 60 * 1000)
  let prof := regionProfiles region
  let temperature := (jsRound (randomInRange prof.tempLo prof.tempHi (rnd (10*i+4)) * 10) : ℚ) / 10
  let lat := (jsRound (randomInRange prof.latLo prof.latHi (rnd (10*i+5)) * 1000) : ℚ) / 1000
  let lon := (jsRound (randomInRange prof.lonLo prof.lonHi (rnd (10*i+6)) * 1000) : ℚ) / 1000
  let waterQuality := (jsRound (randomInRange 2 9 (rnd (10*i+7)) * 10) : ℚ) / 10
  let threatLevel := pickThreatByWaterQuality waterQuality
  let speciesCount := jsFloor (randomInRange 5 300 (rnd (10*i+8)))
  let depth := jsFloor (randomInRange 10 3500 (rnd (10*i+9)))
  let location := jsToUpperCase region ++ " " ++ toFixed1 |lat| ++ "/" ++ toFixed1 |lon|
  ⟨createdAt, region, species, speciesCount, status, waterQuality, threatLevel,
   temperature, depth, (lat, lon), location⟩

/-- The full `docs` array generated by the seeding loop (`totalDocs = 100`). -/
def seedDocs (now : Int) (rnd : Nat → ℚ) : List Observation :=
  (List.range 100).map (seedDoc now rnd)

/-- The database writes performed by `main` after connecting: the target
collection, the three `createIndex` calls, and the single `insertMany` call
carrying the whole `docs` array. -/
structure SeedDbOps where
  collection : String
  createIndexCalls : List (List (String × Int))
  insertManyCalls : List (List Observation)
deriving DecidableEq

/-- Embedding of the database interaction of `main`. -/
def seedRun (now : Int) (rnd : Nat → ℚ) : SeedDbOps :=
  ⟨"species_observations",
   [[("createdAt", -1)], [("region", 1), ("createdAt", -1)], [("species", 1)]],
   [seedDocs now rnd]⟩

/-! ## Concrete collaborators and environments used in example runs -/

/-- A bcrypt comparison that rejects everything. -/
def bcFalse : String → String → Bool := fun _ _ => false

/-- A bcrypt comparison accepting exactly the pair used by the demo user. -/
def bcDemo : String → String → Bool := fun p h => p == "pw" && h == "hash0"

/-- A demo user document with a stored password hash. -/
def demoUser : User := ⟨"u1", "a@b.c", some "hash0", some "Ada", none, some "L", none, none⟩

/-- A demo user document without a stored password (Google Sign-In account). -/
def googleUser : User := ⟨"u2", "g@b.c", none, none, some "goo", none, none, none⟩

/-- An email collaborator that always reports success. -/
def sendOkAlways : ContactEmailRequest → EmailResult := fun _ => ⟨true⟩

/-- An email collaborator that always reports failure. -/
def sendFailAlways : ContactEmailRequest → EmailResult := fun _ => ⟨false⟩

/-- A login environment whose body parse throws. -/
def throwingLoginEnv : LoginEnv := ⟨.error "boom", .ok [], fun _ _ => .ok false, "s", false⟩

/-- A contact environment whose body parse throws. -/
def throwingContactEnv : ContactEnv := ⟨.error "boom", fun _ => .ok ⟨true⟩⟩

/-- The constant-zero stream of `Math.random()` draws. -/
def rzero : Nat → ℚ := fun _ => 0

/-! ## Lemmas on the JavaScript string primitives -/

theorem charToNat_ofNat_valid {n : Nat} (h : n.isValidChar) : (Char.ofNat n).toNat = n := by
  simp [Char.ofNat, dif_pos h, Char.ofNatAux, Char.toNat, UInt32.toNat, BitVec.toNat_ofNatLt]

theorem toNat_toLower_of_upper {c : Char} (h1 : 65 ≤ c.toNat) (h2 : c.toNat ≤ 90) :
    (Char.toLower c).toNat = c.toNat + 32 := by
  unfold Char.toLower
  rw [if_pos ⟨h1, h2⟩]
  exact charToNat_ofNat_valid (Or.inl (by omega))

theorem toLower_eq_self {c : Char} (h : ¬(65 ≤ c.toNat ∧ c.toNat ≤ 90)) :
    Char.toLower c = c := by
  unfold Char.toLower
  rw [if_neg h]

theorem jsWhitespaceChar_toLower (c : Char) :
    jsWhitespaceChar (Char.toLower c) = jsWhitespaceChar c := by
  by_cases h : 65 ≤ c.toNat ∧ c.toNat ≤ 90
  · have ht := toNat_toLower_of_upper h.1 h.2
    simp only [jsWhitespaceChar, ht]
    have h1 := h.1
    have h2 := h.2
    rw [Bool.eq_iff_iff]
    simp only [Bool.or_eq_true, decide_eq_true_eq]
    omega
  · rw [toLower_eq_self h]

theorem toLower_toLower (c : Char) : Char.toLower (Char.toLower c) = Char.toLower c := by
  by_cases h : 65 ≤ c.toNat ∧ c.toNat ≤ 90
  · have ht := toNat_toLower_of_upper h.1 h.2
    apply toLower_eq_self
    omega
  · rw [toLower_eq_self h, toLower_eq_self h]

theorem dropWhile_dropWhile (p : Char → Bool) (l : List Char) :
    List.dropWhile p (List.dropWhile p l) = List.dropWhile p l := by
  induction l with
  | nil => rfl
  | cons a m ih =>
    by_cases h : p a
    · simp [List.dropWhile_cons, h, ih]
    · simp [List.dropWhile_cons, h]

theorem head?_dropWhile (p : Char → Bool) (l : List Char) (c : Char)
    (h : (List.dropWhile p l).head? = some c) : p c = false := by
  induction l with
  | nil => simp at h
  | cons a m ih =>
    by_cases hp : p a
    · rw [List.dropWhile_cons, if_pos hp] at h
      exact ih h
    · rw [List.dropWhile_cons, if_neg hp] at h
      simp at h
      rw [← h]
      simp [hp]

theorem getLast?_dropWhile (p : Char → Bool) (l : List Char)
    (h : List.dropWhile p l ≠ []) : (List.dropWhile p l).getLast? = l.getLast? := by
  induction l with
  | nil => simp at h
  | cons a m ih =>
    by_cases hp : p a
    · rw [List.dropWhile_cons, if_pos hp] at h ⊢
      have hm : m ≠ [] := by
        intro he
        rw [he] at h
        simp at h
      rw [ih h]
      cases m with
      | nil => exact absurd rfl hm
      | cons b k => rw [List.getLast?_cons_cons]
    · rw [List.dropWhile_cons, if_neg hp]

theorem dropWhile_eq_self_of_head (p : Char → Bool) (l : List Char)
    (h : ∀ c, l.head? = some c → p c = false) : List.dropWhile p l = l := by
  cases l with
  | nil => rfl
  | cons a m => rw [List.dropWhile_cons, if_neg (by simp [h a rfl])]

theorem head?_jsTrim (l : List Char) (c : Char) (h : (jsTrim l).head? = some c) :
    jsWhitespaceChar c = false := by
  unfold jsTrim at h
  rw [List.head?_reverse] at h
  have hne : List.dropWhile jsWhitespaceChar (List.dropWhile jsWhitespaceChar l).reverse ≠ [] := by
    intro he
    rw [he] at h
    simp at h
  rw [getLast?_dropWhile _ _ hne, List.getLast?_reverse] at h
  exact head?_dropWhile _ _ _ h

theorem getLast?_jsTrim (l : List Char) (c : Char) (h : (jsTrim l).getLast? = some c) :
    jsWhitespaceChar c = false := by
  unfold jsTrim at h
  rw [List.getLast?_reverse] at h
  exact head?_dropWhile _ _ _ h

theorem jsTrim_of_clean (l : List Char)
    (h1 : ∀ c, l.head? = some c → jsWhitespaceChar c = false)
    (h2 : ∀ c, l.getLast? = some c → jsWhitespaceChar c = false) : jsTrim l = l := by
  unfold jsTrim
  rw [dropWhile_eq_self_of_head _ _ h1]
  rw [dropWhile_eq_self_of_head _ _ (by intro c hc; exact h2 c (by rwa [List.head?_reverse] at hc))]
  exact List.reverse_reverse l

theorem jsTrim_jsTrim (l : List Char) : jsTrim (jsTrim l) = jsTrim l :=
  jsTrim_of_clean _ (head?_jsTrim l) (getLast?_jsTrim l)

theorem dropWhile_map_toLower (l : List Char) :
    List.dropWhile jsWhitespaceChar (l.map Char.toLower) =
      (List.dropWhile jsWhitespaceChar l).map Char.toLower := by
  induction l with
  | nil => rfl
  | cons a m ih =>
    by_cases h : jsWhitespaceChar a
    · rw [List.map_cons, List.dropWhile_cons, List.dropWhile_cons,
        if_pos (by rw [jsWhitespaceChar_toLower]; exact h), if_pos h, ih]
    · rw [List.map_cons, List.dropWhile_cons, List.dropWhile_cons,
        if_neg (by rw [jsWhitespaceChar_toLower]; exact h), if_neg h, List.map_cons]

theorem jsTrim_lower_comm (l : List Char) :
    jsTrim (jsToLowerCase l) = jsToLowerCase (jsTrim l) := by
  unfold jsTrim jsToLowerCase
  rw [dropWhile_map_toLower, ← List.map_reverse, dropWhile_map_toLower, ← List.map_reverse]

theorem jsToLowerCase_idem (l : List Char) :
    jsToLowerCase (jsToLowerCase l) = jsToLowerCase l := by
  unfold jsToLowerCase
  rw [List.map_map]
  apply List.map_congr_left
  intro a _
  exact toLower_toLower a

theorem normalizeEmail_idem (s : String) :
    normalizeEmail (normalizeEmail s) = normalizeEmail s := by
  unfold normalizeEmail
  apply congrArg String.mk
  show jsToLowerCase (jsTrim (jsToLowerCase (jsTrim s.data))) = jsToLowerCase (jsTrim s.data)
  rw [jsTrim_lower_comm, jsToLowerCase_idem, jsTrim_jsTrim]

/-! ## Unfolding lemmas for the two handlers -/

theorem login_some_unfold (users : List User) (bc : String → String → Bool)
    (secret e p : String) (he : e ≠ "") (hp : p ≠ "") :
    login users bc secret ⟨some e, some p⟩ =
      match findOne users (normalizeEmail e) with
      | none => (loginInvalid401, [])
      | some user =>
        if jsFalsy user.password then (loginGoogle400, [])
        else if bc p (user.password.getD "") then
          (⟨200, "Login successful", some (mkUserOut user),
            some ⟨"auth_token", jwtSign user.id user.email secret,
                  true, false, "lax", 3600, "/"⟩⟩,
           [(p, user.password.getD "")])
        else (loginInvalid401, [(p, user.password.getD "")]) := by
  unfold login loginPOST loginRun pureLoginEnv
  have hcond : (jsFalsy (some e) || jsFalsy (some p)) = false := by
    simp [jsFalsy, he, hp]
  simp only [hcond, Bool.false_eq_true, if_false, Option.getD_some]
  cases hfind : findOne users (normalizeEmail e) with
  | none => rfl
  | some user =>
    by_cases hpw : jsFalsy user.password
    · simp only [hpw, if_true]
    · simp only [Bool.not_eq_true] at hpw
      simp only [hpw, Bool.false_eq_true, if_false]
      cases hbc : bc p (user.password.getD "") with
      | false => simp
      | true => simp

theorem contact_unfold (send : ContactEmailRequest → EmailResult) (cb : ContactBody) :
    contact send cb =
      if jsFalsy cb.firstName || jsFalsy cb.lastName || jsFalsy cb.email || jsFalsy cb.message then
        (contactMissing400, [])
      else if !(emailRegexTest (cb.email.getD "")) then
        (contactBadEmail400, [])
      else if (send (mkContactReq cb)).success then
        (contactSuccess200, [mkContactReq cb])
      else
        (contactSendFailed500, [mkContactReq cb]) := by
  unfold contact contactPOST contactRun pureContactEnv
  by_cases h1 : jsFalsy cb.firstName || jsFalsy cb.lastName || jsFalsy cb.email || jsFalsy cb.message
  · simp [h1]
  · simp only [h1, Bool.false_eq_true, if_false, if_neg]
    by_cases h2 : emailRegexTest (cb.email.getD "")
    · simp only [h2, Bool.not_true, Bool.false_eq_true, if_false, if_neg]
      cases h3 : (send (mkContactReq cb)).success with
      | false => simp [h3]
      | true => simp [h3]
    · simp [h2]

/-! ## Claims about the login and contact handlers -/

/-- Claim C1: a login request whose non-empty email normalizes to a stored
user whose stored bcrypt hash matches the given password is answered with
status 200, message "Login successful", and an HTTP-only `auth_token` cookie
holding a JWT signed with the JWT secret that carries the user's id and
email. -/
theorem login_success_sets_cookie (users : List User) (bc : String → String → Bool)
    (secret e p h : String) (u : User)
    (he : e ≠ "") (hp : p ≠ "")
    (hu : findOne users (normalizeEmail e) = some u)
    (hpw : u.password = some h) (hh : h ≠ "") (hbc : bc p h = true) :
    login users bc secret ⟨some e, some p⟩ =
      (⟨200, "Login successful", some (mkUserOut u),
        some ⟨"auth_token", jwtSign u.id u.email secret, true, false, "lax", 3600, "/"⟩⟩,
       [(p, h)]) := by
  rw [login_some_unfold users bc secret e p he hp, hu]
  simp [jsFalsy, hpw, hh, hbc]

/-- Witness for C1 at a concrete user and request. -/
theorem login_success_sets_cookie_w :
    findOne [demoUser] (normalizeEmail "A@b.c ") = some demoUser ∧
    bcDemo "pw" "hash0" = true ∧
    login [demoUser] bcDemo "secret0" ⟨some "A@b.c ", some "pw"⟩ =
      (⟨200, "Login successful", some (mkUserOut demoUser),
        some ⟨"auth_token", jwtSign "u1" "a@b.c" "secret0", true, false, "lax", 3600, "/"⟩⟩,
       [("pw", "hash0")]) :=
  ⟨by decide, by decide,
   login_success_sets_cookie [demoUser] bcDemo "secret0" "A@b.c " "pw" "hash0" demoUser
     (by decide) (by decide) (by decide) (by decide) (by decide) (by decide)⟩

/-- Claim C2: with both fields present, an email matching no stored user, or
a stored user with a stored hash the bcrypt comparison rejects, yields status
401 with a JSON error body and no `auth_token` cookie. -/
theorem login_invalid_credentials_401 (users : List User) (bc : String → String → Bool)
    (secret e p : String)
    (he : e ≠ "") (hp : p ≠ "")
    (hcase : findOne users (normalizeEmail e) = none ∨
      ∃ u h, findOne users (normalizeEmail e) = some u ∧ u.password = some h ∧ h ≠ "" ∧
        bc p h = false) :
    (login users bc secret ⟨some e, some p⟩).1 = loginInvalid401 ∧
    (login users bc secret ⟨some e, some p⟩).1.cookie = none := by
  have hmain : (login users bc secret ⟨some e, some p⟩).1 = loginInvalid401 := by
    rcases hcase with hnone | ⟨u, h, hu, hpw, hh, hbc⟩
    · rw [login_some_unfold users bc secret e p he hp, hnone]
    · rw [login_some_unfold users bc secret e p he hp, hu]
      simp [jsFalsy, hpw, hh, hbc]
  exact ⟨hmain, by rw [hmain]; rfl⟩

/-- Witness for C2: an email matching no stored user. -/
theorem login_invalid_credentials_401_w :
    findOne [demoUser] (normalizeEmail "x@b.c") = none ∧
    (login [demoUser] bcDemo "s" ⟨some "x@b.c", some "pw"⟩).1 = loginInvalid401 :=
  ⟨by decide,
   (login_invalid_credentials_401 [demoUser] bcDemo "s" "x@b.c" "pw"
     (by decide) (by decide) (Or.inl (by decide))).1⟩

/-- Claim C3: the login handler answers 400 whenever email or password is
absent or falsy, and the contact handler answers 400 exactly when a required
field is falsy or the email fails the format check - a condition that never
involves `institution`, so an absent institution alone never causes a 400. -/
theorem missing_fields_give_400 (users : List User) (bc : String → String → Bool)
    (secret : String) (b : LoginBody)
    (send : ContactEmailRequest → EmailResult) (cb : ContactBody) :
    ((jsFalsy b.email || jsFalsy b.password) = true →
      (login users bc secret b).1 = loginMissing400) ∧
    ((contact send cb).1.status = 400 ↔
      ((jsFalsy cb.firstName || jsFalsy cb.lastName || jsFalsy cb.email || jsFalsy cb.message) = true ∨
        emailRegexTest (cb.email.getD "") = false)) := by
  constructor
  · intro h
    unfold login loginPOST loginRun pureLoginEnv
    simp [h]
  · rw [contact_unfold]
    by_cases h1 : (jsFalsy cb.firstName || jsFalsy cb.lastName || jsFalsy cb.email || jsFalsy cb.message) = true
    · simp [h1, contactMissing400]
    · simp only [Bool.not_eq_true] at h1
      by_cases h2 : emailRegexTest (cb.email.getD "") = true
      · simp only [h1, h2, Bool.false_eq_true, if_false, Bool.not_true]
        cases h3 : (send (mkContactReq cb)).success with
        | false => simp [contactSendFailed500]
        | true => simp [contactSuccess200]
      · simp only [Bool.not_eq_true] at h2
        simp [h1, h2, contactBadEmail400]

/-- Witness for C3: a login body missing its email and a contact body missing
its email. -/
theorem missing_fields_give_400_w :
    (login [] bcFalse "s" ⟨none, some "x"⟩).1 = loginMissing400 ∧
    (contact sendOkAlways ⟨some "A", some "B", none, none, some "m"⟩).1.status = 400 :=
  ⟨(missing_fields_give_400 [] bcFalse "s" ⟨none, some "x"⟩ sendOkAlways
      ⟨some "A", some "B", none, none, some "m"⟩).1 (by decide),
   (missing_fields_give_400 [] bcFalse "s" ⟨none, some "x"⟩ sendOkAlways
      ⟨some "A", some "B", none, none, some "m"⟩).2.mpr (Or.inl (by decide))⟩

/-- Claim C4 counterexample: the all-whitespace email " " and the empty email
"" normalize identically, yet the handler answers 401 for the former and 400
for the latter, so the response is not a function of the normalized email
alone. -/
theorem login_normalization_cx :
    normalizeEmail " " = normalizeEmail "" ∧
    login [] bcFalse "supersecret" ⟨some " ", some "x"⟩ ≠
      login [] bcFalse "supersecret" ⟨some "", some "x"⟩ := by decide

/-- Claim C4 (amended): whenever two submitted emails have the same non-empty
normalization, the handler's response is identical; in particular the
response to an email equals the response to its normalization. -/
theorem login_normalizes_email (users : List User) (bc : String → String → Bool)
    (secret e1 e2 p : String)
    (hn : normalizeEmail e1 = normalizeEmail e2) (hne : normalizeEmail e1 ≠ "") :
    login users bc secret ⟨some e1, some p⟩ = login users bc secret ⟨some e2, some p⟩ ∧
    login users bc secret ⟨some e1, some p⟩ =
      login users bc secret ⟨some (normalizeEmail e1), some p⟩ := by
  have key : ∀ f1 f2 : String, normalizeEmail f1 = normalizeEmail f2 →
      normalizeEmail f1 ≠ "" →
      login users bc secret ⟨some f1, some p⟩ = login users bc secret ⟨some f2, some p⟩ := by
    intro f1 f2 hn12 hne1
    have hf1 : f1 ≠ "" := by
      intro hcontra
      apply hne1
      rw [hcontra]
      rfl
    have hf2 : f2 ≠ "" := by
      intro hcontra
      apply hne1
      rw [hn12, hcontra]
      rfl
    by_cases hp : p = ""
    · subst hp
      unfold login loginPOST loginRun pureLoginEnv
      simp [jsFalsy]
    · rw [login_some_unfold users bc secret f1 p hf1 hp,
        login_some_unfold users bc secret f2 p hf2 hp, hn12]
  refine ⟨key e1 e2 hn hne, key e1 (normalizeEmail e1) (normalizeEmail_idem e1).symm hne⟩

/-- Witness for the amended C4: two spellings of the same address. -/
theorem login_normalizes_email_w :
    normalizeEmail " A@b.c" = normalizeEmail "a@B.C " ∧ normalizeEmail " A@b.c" ≠ "" ∧
    login [demoUser] bcDemo "s" ⟨some " A@b.c", some "pw"⟩ =
      login [demoUser] bcDemo "s" ⟨some "a@B.C ", some "pw"⟩ :=
  ⟨by decide, by decide,
   (login_normalizes_email [demoUser] bcDemo "s" " A@b.c" "a@B.C " "pw"
     (by decide) (by decide)).1⟩

/-- Claim C5 counterexample: with institution present but empty, the
collaborator is not called with the fields as given; the empty institution is
replaced by "Not specified". -/
theorem contact_institution_cx :
    (contact sendOkAlways ⟨some "A", some "B", some "a@b.c", some "", some "hi"⟩).2 ≠
      [⟨"A", "B", "a@b.c", "", "hi"⟩] ∧
    (contact sendOkAlways ⟨some "A", some "B", some "a@b.c", some "", some "hi"⟩).2 =
      [⟨"A", "B", "a@b.c", "Not specified", "hi"⟩] := by decide

/-- Claim C5 (amended): with the four required fields present and the email
passing the format check, the collaborator is called exactly once, with the
given fields except that a missing or empty institution becomes
"Not specified"; the handler answers 200 with success when the collaborator
succeeds and 500 when it fails. -/
theorem contact_sends_email_once (send : ContactEmailRequest → EmailResult) (cb : ContactBody)
    (hreq : (jsFalsy cb.firstName || jsFalsy cb.lastName || jsFalsy cb.email || jsFalsy cb.message) = false)
    (hreg : emailRegexTest (cb.email.getD "") = true) :
    (contact send cb).2 = [mkContactReq cb] ∧
    ((send (mkContactReq cb)).success = true → (contact send cb).1 = contactSuccess200) ∧
    ((send (mkContactReq cb)).success = false → (contact send cb).1 = contactSendFailed500) := by
  simp only [contact_unfold, hreq, hreg, Bool.not_true, Bool.false_eq_true, if_false]
  refine ⟨?_, ?_, ?_⟩
  · cases hs : (send (mkContactReq cb)).success <;> simp [hs]
  · intro hs
    simp [hs]
  · intro hs
    simp [hs]

/-- Witness for the amended C5: a request without institution, sent through a
succeeding collaborator. -/
theorem contact_sends_email_once_w :
    emailRegexTest "a@b.c" = true ∧
    (contact sendOkAlways ⟨some "A", some "B", some "a@b.c", none, some "hi"⟩).2 =
      [mkContactReq ⟨some "A", some "B", some "a@b.c", none, some "hi"⟩] ∧
    (contact sendOkAlways ⟨some "A", some "B", some "a@b.c", none, some "hi"⟩).1 =
      contactSuccess200 :=
  ⟨by decide,
   (contact_sends_email_once sendOkAlways ⟨some "A", some "B", some "a@b.c", none, some "hi"⟩
     (by decide) (by decide)).1,
   (contact_sends_email_once sendOkAlways ⟨some "A", some "B", some "a@b.c", none, some "hi"⟩
     (by decide) (by decide)).2.1 (by decide)⟩

/-- Claim C7: a thrown exception in the try block of either handler - a body
parse failure, or any failing downstream call - is caught and mapped to the
generic 500 response with its fixed message, instead of propagating; the
handlers are total functions of their environment. -/
theorem handlers_catch_exceptions (lenv : LoginEnv) (cenv : ContactEnv) :
    (∀ e, lenv.body = .error e → loginPOST lenv = (loginError500, [])) ∧
    (∀ e calls, loginRun lenv = (.error e, calls) → loginPOST lenv = (loginError500, calls)) ∧
    (∀ e, cenv.body = .error e → contactPOST cenv = (contactError500, [])) ∧
    (∀ e calls, contactRun cenv = (.error e, calls) → contactPOST cenv = (contactError500, calls)) := by
  refine ⟨?_, ?_, ?_, ?_⟩
  · intro e h
    unfold loginPOST loginRun
    rw [h]
  · intro e calls h
    unfold loginPOST
    rw [h]
  · intro e h
    unfold contactPOST contactRun
    rw [h]
  · intro e calls h
    unfold contactPOST
    rw [h]

/-- Witness for C7: both handlers on environments whose body parse throws. -/
theorem handlers_catch_exceptions_w :
    loginPOST throwingLoginEnv = (loginError500, []) ∧
    contactPOST throwingContactEnv = (contactError500, []) :=
  ⟨(handlers_catch_exceptions throwingLoginEnv throwingContactEnv).1 "boom" rfl,
   (handlers_catch_exceptions throwingLoginEnv throwingContactEnv).2.2.1 "boom" rfl⟩

/-- Claim C8: with both fields present and a matching user without a stored
password, the handler answers 400 (not 401) with the Google Sign-In message
and never calls the bcrypt comparison. -/
theorem login_google_account_400 (users : List User) (bc : String → String → Bool)
    (secret e p : String) (u : User)
    (he : e ≠ "") (hp : p ≠ "")
    (hu : findOne users (normalizeEmail e) = some u)
    (hpw : jsFalsy u.password = true) :
    login users bc secret ⟨some e, some p⟩ = (loginGoogle400, []) ∧
    loginGoogle400.status = 400 := by
  constructor
  · rw [login_some_unfold users bc secret e p he hp, hu]
    simp [hpw]
  · rfl

/-- Witness for C8: a Google Sign-In account without password. -/
theorem login_google_account_400_w :
    findOne [googleUser] (normalizeEmail "G@b.c") = some googleUser ∧
    jsFalsy googleUser.password = true ∧
    login [googleUser] bcFalse "s" ⟨some "G@b.c", some "pw"⟩ = (loginGoogle400, []) :=
  ⟨by decide, by decide,
   (login_google_account_400 [googleUser] bcFalse "s" "G@b.c" "pw" googleUser
     (by decide) (by decide) (by decide) (by decide)).1⟩

/-- Claim C9: with the required fields present but an email failing the
format check, the contact handler answers 400 with the invalid-address error
and never calls the collaborator. -/
theorem contact_invalid_email_400 (send : ContactEmailRequest → EmailResult) (cb : ContactBody)
    (hreq : (jsFalsy cb.firstName || jsFalsy cb.lastName || jsFalsy cb.email || jsFalsy cb.message) = false)
    (hreg : emailRegexTest (cb.email.getD "") = false) :
    contact send cb = (contactBadEmail400, []) := by
  rw [contact_unfold]
  simp [hreq, hreg]

/-- Witness for C9: an address without an at sign. -/
theorem contact_invalid_email_400_w :
    emailRegexTest "not-an-email" = false ∧
    contact sendOkAlways ⟨some "A", some "B", some "not-an-email", none, some "hi"⟩ =
      (contactBadEmail400, []) :=
  ⟨by decide,
   contact_invalid_email_400 sendOkAlways ⟨some "A", some "B", some "not-an-email", none, some "hi"⟩
     (by decide) (by decide)⟩

/-! ## Lemmas on the seeding script's numeric helpers -/

theorem jsFloor_randomInRange_bounds (kl kh : Int) {lo hi r : ℚ} (h0 : 0 ≤ r) (h1 : r < 1)
    (hkl : (kl : ℚ) = lo) (hkh : (kh : ℚ) = hi) (hlt : lo < hi) :
    kl ≤ jsFloor (randomInRange lo hi r) ∧ jsFloor (randomInRange lo hi r) < kh := by
  have hd : (0:ℚ) ≤ hi - lo := by linarith
  have hv1 : lo ≤ randomInRange lo hi r := by
    have := mul_nonneg h0 hd
    unfold randomInRange
    linarith
  have hv2 : randomInRange lo hi r < hi := by
    have := mul_lt_of_lt_one_left (by linarith : (0:ℚ) < hi - lo) h1
    unfold randomInRange
    linarith
  constructor
  · exact Int.le_floor.mpr (by rw [hkl]; exact hv1)
  · exact Int.floor_lt.mpr (by rw [hkh]; exact hv2)

theorem jsRound_div_bounds (kl kh : Int) {lo hi r s : ℚ} (h0 : 0 ≤ r) (h1 : r < 1)
    (hs : 0 < s) (hkl : (kl : ℚ) = s * lo) (hkh : (kh : ℚ) = s * hi) (hlt : lo < hi) :
    lo ≤ (jsRound (randomInRange lo hi r * s) : ℚ) / s ∧
    (jsRound (randomInRange lo hi r * s) : ℚ) / s ≤ hi := by
  have hd : (0:ℚ) ≤ hi - lo := by linarith
  have hv1 : lo ≤ randomInRange lo hi r := by
    have := mul_nonneg h0 hd
    unfold randomInRange
    linarith
  have hv2 : randomInRange lo hi r < hi := by
    have := mul_lt_of_lt_one_left (by linarith : (0:ℚ) < hi - lo) h1
    unfold randomInRange
    linarith
  have hfl : kl ≤ jsRound (randomInRange lo hi r * s) := by
    apply Int.le_floor.mpr
    rw [hkl]
    have := mul_le_mul_of_nonneg_left hv1 hs.le
    linarith
  have hfu : jsRound (randomInRange lo hi r * s) ≤ kh := by
    have hlt2 : jsRound (randomInRange lo hi r * s) < kh + 1 := by
      apply Int.floor_lt.mpr
      push_cast
      have := mul_lt_mul_of_pos_left hv2 hs
      linarith
    omega
  constructor
  · rw [le_div_iff₀ hs]
    calc lo * s = s * lo := mul_comm _ _
    _ = (kl : ℚ) := hkl.symm
    _ ≤ _ := Int.cast_le.mpr hfl
  · rw [div_le_iff₀ hs]
    calc ((jsRound (randomInRange lo hi r * s)) : ℚ) ≤ (kh : ℚ) := Int.cast_le.mpr hfu
    _ = s * hi := hkh
    _ = hi * s := mul_comm _ _

theorem getD_mem_of_lt (l : List String) (n : Nat) (d : String) (h : n < l.length) :
    l.getD n d ∈ l := by
  induction l generalizing n with
  | nil => simp at h
  | cons a m ih =>
    cases n with
    | zero => simp
    | succ k =>
      simp only [List.getD_cons_succ]
      exact List.mem_cons_of_mem _ (ih k (by simpa using h))

theorem randomChoice_mem (l : List String) (r : ℚ) (hne : l ≠ []) (h0 : 0 ≤ r) (h1 : r < 1) :
    randomChoice l r ∈ l := by
  have hlen : 0 < l.length := List.length_pos.mpr hne
  have hflnn : 0 ≤ jsFloor (r * l.length) :=
    Int.floor_nonneg.mpr (mul_nonneg h0 (by positivity))
  have hfllt : jsFloor (r * l.length) < (l.length : Int) := by
    apply Int.floor_lt.mpr
    push_cast
    exact mul_lt_of_lt_one_left (by exact_mod_cast hlen) h1
  have hidx : (jsFloor (r * l.length)).toNat < l.length := by omega
  exact getD_mem_of_lt l _ "" hidx

theorem regionProfiles_pacific : regionProfiles "pacific" = ⟨6, 28, -40, 40, -160, -120⟩ := rfl

theorem regionProfiles_atlantic : regionProfiles "atlantic" = ⟨5, 26, -30, 50, -60, -20⟩ := rfl

theorem regionProfiles_indian : regionProfiles "indian" = ⟨8, 30, -35, 20, 50, 100⟩ := rfl

theorem regionProfiles_arctic : regionProfiles "arctic" = ⟨2, 8, 65, 80, -160, 40⟩ := rfl

/-! ## Claims about the seeding script -/

/-- Claim C6: the seeding script generates exactly 100 documents and hands
them all to a single `insertMany` on `species_observations`; each document's
region comes from the four-element region list, its species from the
20-element pool, its species count lies in [5, 300), its water quality in
[2, 9], its coordinates inside its region's latitude/longitude profile, and
its creation time within the last 180 days of the run time. -/
theorem seed_script_shape (now : Int) (rnd : Nat → ℚ)
    (hr : ∀ i, 0 ≤ rnd i ∧ rnd i < 1) :
    (seedDocs now rnd).length = 100 ∧
    (seedRun now rnd).insertManyCalls = [seedDocs now rnd] ∧
    (seedRun now rnd).collection = "species_observations" ∧
    speciesPool.length = 20 ∧
    ∀ d ∈ seedDocs now rnd,
      d.region ∈ regions ∧
      d.species ∈ speciesPool ∧
      (5 ≤ d.speciesCount ∧ d.speciesCount < 300) ∧
      ((2:ℚ) ≤ d.waterQuality ∧ d.waterQuality ≤ 9) ∧
      ((regionProfiles d.region).latLo ≤ d.coordinates.1 ∧
        d.coordinates.1 ≤ (regionProfiles d.region).latHi ∧
        (regionProfiles d.region).lonLo ≤ d.coordinates.2 ∧
        d.coordinates.2 ≤ (regionProfiles d.region).lonHi) ∧
      (now - 180 * (24 * 60 * 60 * 1000) ≤ d.createdAt ∧ d.createdAt ≤ now) := by
  refine ⟨by simp [seedDocs], rfl, rfl, rfl, ?_⟩
  intro d hd
  simp only [seedDocs, List.mem_map, List.mem_range] at hd
  obtain ⟨i, -, rfl⟩ := hd
  obtain ⟨h0r, h1r⟩ := hr (10*i)
  obtain ⟨h0s, h1s⟩ := hr (10*i+1)
  obtain ⟨h0d, h1d⟩ := hr (10*i+3)
  obtain ⟨h0la, h1la⟩ := hr (10*i+5)
  obtain ⟨h0lo, h1lo⟩ := hr (10*i+6)
  obtain ⟨h0w, h1w⟩ := hr (10*i+7)
  obtain ⟨h0c, h1c⟩ := hr (10*i+8)
  simp only [seedDoc]
  refine ⟨?_, ?_, ?_, ?_, ?_, ?_⟩
  · exact randomChoice_mem regions _ (by decide) h0r h1r
  · exact randomChoice_mem speciesPool _ (by decide) h0s h1s
  · exact jsFloor_randomInRange_bounds 5 300 h0c h1c (by norm_num) (by norm_num) (by norm_num)
  · exact jsRound_div_bounds 20 90 h0w h1w (by norm_num) (by norm_num) (by norm_num) (by norm_num)
  · have hreg4 : randomChoice regions (rnd (10*i)) = "pacific" ∨
        randomChoice regions (rnd (10*i)) = "atlantic" ∨
        randomChoice regions (rnd (10*i)) = "indian" ∨
        randomChoice regions (rnd (10*i)) = "arctic" := by
      have hreg := randomChoice_mem regions (rnd (10*i)) (by decide) h0r h1r
      simpa [regions] using hreg
    rcases hreg4 with h | h | h | h <;> rw [h]
    · rw [regionProfiles_pacific]
      exact ⟨(jsRound_div_bounds (-40000) 40000 h0la h1la (by norm_num) (by norm_num) (by norm_num) (by norm_num)).1,
             (jsRound_div_bounds (-40000) 40000 h0la h1la (by norm_num) (by norm_num) (by norm_num) (by norm_num)).2,
             (jsRound_div_bounds (-160000) (-120000) h0lo h1lo (by norm_num) (by norm_num) (by norm_num) (by norm_num)).1,
             (jsRound_div_bounds (-160000) (-120000) h0lo h1lo (by norm_num) (by norm_num) (by norm_num) (by norm_num)).2⟩
    · rw [regionProfiles_atlantic]
      exact ⟨(jsRound_div_bounds (-30000) 50000 h0la h1la (by norm_num) (by norm_num) (by norm_num) (by norm_num)).1,
             (jsRound_div_bounds (-30000) 50000 h0la h1la (by norm_num) (by norm_num) (by norm_num) (by norm_num)).2,
             (jsRound_div_bounds (-60000) (-20000) h0lo h1lo (by norm_num) (by norm_num) (by norm_num) (by norm_num)).1,
             (jsRound_div_bounds (-60000) (-20000) h0lo h1lo (by norm_num) (by norm_num) (by norm_num) (by norm_num)).2⟩
    · rw [regionProfiles_indian]
      exact ⟨(jsRound_div_bounds (-35000) 20000 h0la h1la (by norm_num) (by norm_num) (by norm_num) (by norm_num)).1,
             (jsRound_div_bounds (-35000) 20000 h0la h1la (by norm_num) (by norm_num) (by norm_num) (by norm_num)).2,
             (jsRound_div_bounds 50000 100000 h0lo h1lo (by norm_num) (by norm_num) (by norm_num) (by norm_num)).1,
             (jsRound_div_bounds 50000 100000 h0lo h1lo (by norm_num) (by norm_num) (by norm_num) (by norm_num)).2⟩
    · rw [regionProfiles_arctic]
      exact ⟨(jsRound_div_bounds 65000 80000 h0la h1la (by norm_num) (by norm_num) (by norm_num) (by norm_num)).1,
             (jsRound_div_bounds 65000 80000 h0la h1la (by norm_num) (by norm_num) (by norm_num) (by norm_num)).2,
             (jsRound_div_bounds (-160000) 40000 h0lo h1lo (by norm_num) (by norm_num) (by norm_num) (by norm_num)).1,
             (jsRound_div_bounds (-160000) 40000 h0lo h1lo (by norm_num) (by norm_num) (by norm_num) (by norm_num)).2⟩
  · have hnn : 0 ≤ jsFloor (rnd (10*i+3) * (6 * 30)) :=
      Int.floor_nonneg.mpr (mul_nonneg h0d (by norm_num))
    have hub : jsFloor (rnd (10*i+3) * (6 * 30)) < 180 := by
      apply Int.floor_lt.mpr
      push_cast
      have := mul_lt_of_lt_one_left (show (0:ℚ) < 6 * 30 by norm_num) h1d
      linarith
    have htn : ((Int.toNat (jsFloor (rnd (10*i+3) * (6 * 30)))) : Int) =
        jsFloor (rnd (10*i+3) * (6 * 30)) := Int.toNat_of_nonneg hnn
    constructor
    · rw [htn]
      omega
    · rw [htn]
      omega

/-- Witness for C6: the all-zero random stream. -/
theorem seed_script_shape_w :
    (seedDocs 0 rzero).length = 100 ∧
    (seedRun 0 rzero).insertManyCalls = [seedDocs 0 rzero] ∧
    (seedDoc 0 rzero 0).region ∈ regions := by
  have hr : ∀ i, 0 ≤ rzero i ∧ rzero i < 1 := fun i => ⟨le_refl 0, by norm_num [rzero]⟩
  have h := seed_script_shape 0 rzero hr
  refine ⟨h.1, h.2.1, ?_⟩
  have hmem : seedDoc 0 rzero 0 ∈ seedDocs 0 rzero := by
    unfold seedDocs
    exact List.mem_map_of_mem _ (List.mem_range.mpr (by norm_num))
  exact (h.2.2.2.2 _ hmem).1

theorem pickThreat_iff (q : ℚ) :
    (pickThreatByWaterQuality q = "low" ↔ 7.5 ≤ q) ∧
    (pickThreatByWaterQuality q = "medium" ↔ 5.5 ≤ q ∧ q < 7.5) ∧
    (pickThreatByWaterQuality q = "high" ↔ 3.5 ≤ q ∧ q < 5.5) ∧
    (pickThreatByWaterQuality q = "critical" ↔ q < 3.5) := by
  unfold pickThreatByWaterQuality
  rcases le_or_lt (7.5:ℚ) q with h1 | h1
  · rw [if_pos h1]
    refine ⟨iff_of_true rfl h1, ?_, ?_, ?_⟩
    · exact iff_of_false (by decide) (by rintro ⟨-, h⟩; linarith)
    · exact iff_of_false (by decide) (by rintro ⟨-, h⟩; linarith)
    · exact iff_of_false (by decide) (by intro h; linarith)
  · rw [if_neg (not_le.mpr h1)]
    rcases le_or_lt (5.5:ℚ) q with h2 | h2
    · rw [if_pos h2]
      refine ⟨?_, iff_of_true rfl ⟨h2, h1⟩, ?_, ?_⟩
      · exact iff_of_false (by decide) (by intro h; linarith)
      · exact iff_of_false (by decide) (by rintro ⟨-, h⟩; linarith)
      · exact iff_of_false (by decide) (by intro h; linarith)
    · rw [if_neg (not_le.mpr h2)]
      rcases le_or_lt (3.5:ℚ) q with h3 | h3
      · rw [if_pos h3]
        refine ⟨?_, ?_, iff_of_true rfl ⟨h3, h2⟩, ?_⟩
        · exact iff_of_false (by decide) (by intro h; linarith)
        · exact iff_of_false (by decide) (by rintro ⟨h, -⟩; linarith)
        · exact iff_of_false (by decide) (by intro h; linarith)
      · rw [if_neg (not_le.mpr h3)]
        refine ⟨?_, ?_, ?_, iff_of_true rfl h3⟩
        · exact iff_of_false (by decide) (by intro h; linarith)
        · exact iff_of_false (by decide) (by rintro ⟨h, -⟩; linarith)
        · exact iff_of_false (by decide) (by rintro ⟨h, -⟩; linarith)

/-- Claim C10: in every generated document, the threat level is the
deterministic image of the water quality under the script's thresholds:
"low" iff at least 7.5, "medium" iff in [5.5, 7.5), "high" iff in
[3.5, 5.5), "critical" iff below 3.5. -/
theorem seed_threat_matches_water_quality (now : Int) (rnd : Nat → ℚ) (d : Observation)
    (hd : d ∈ seedDocs now rnd) :
    d.threatLevel = pickThreatByWaterQuality d.waterQuality ∧
    (d.threatLevel = "low" ↔ 7.5 ≤ d.waterQuality) ∧
    (d.threatLevel = "medium" ↔ 5.5 ≤ d.waterQuality ∧ d.waterQuality < 7.5) ∧
    (d.threatLevel = "high" ↔ 3.5 ≤ d.waterQuality ∧ d.waterQuality < 5.5) ∧
    (d.threatLevel = "critical" ↔ d.waterQuality < 3.5) := by
  simp only [seedDocs, List.mem_map, List.mem_range] at hd
  obtain ⟨i, -, rfl⟩ := hd
  have hT : (seedDoc now rnd i).threatLevel =
      pickThreatByWaterQuality ((seedDoc now rnd i).waterQuality) := by
    simp only [seedDoc]
  rw [hT]
  exact ⟨rfl, (pickThreat_iff _).1, (pickThreat_iff _).2.1,
    (pickThreat_iff _).2.2.1, (pickThreat_iff _).2.2.2⟩

/-- Witness for C10: the first document of the all-zero random stream. -/
theorem seed_threat_matches_water_quality_w :
    seedDoc 0 rzero 0 ∈ seedDocs 0 rzero ∧
    (seedDoc 0 rzero 0).threatLevel =
      pickThreatByWaterQuality ((seedDoc 0 rzero 0).waterQuality) := by
  have hmem : seedDoc 0 rzero 0 ∈ seedDocs 0 rzero := by
    unfold seedDocs
    exact List.mem_map_of_mem _ (List.mem_range.mpr (by norm_num))
  exact ⟨hmem, (seed_threat_matches_water_quality 0 rzero _ hmem).1⟩
